import Mathlib

/-!
Verification of the async decimal clock program.

The program keeps two clock states (a standard clock and a decimal clock),
each storing a `current_time` tuple sampled from the wall clock as
(hour, minute, second, microsecond).  We embed the tuple as `List ℕ`
(the Python tuple defaults to the empty tuple on construction, so the
length is not fixed by the type), Python floats as exact rationals `ℚ`,
and fallible tuple indexing as `Option`.
-/

namespace AsyncDecimalClock

/-- Python `str.zfill(width)`: pad a string on the left with `'0'`
characters up to `width`, keeping a leading sign in front of the padding. -/
def zfill (width : ℕ) (s : String) : String :=
  if width ≤ s.length then s
  else
    match s.data with
    | '+' :: rest => String.mk ('+' :: (List.replicate (width - s.length) '0' ++ rest))
    | '-' :: rest => String.mk ('-' :: (List.replicate (width - s.length) '0' ++ rest))
    | _ => String.mk (List.replicate (width - s.length) '0' ++ s.data)

/-- `Clock.__str__`: join the first three stored fields, each rendered in
decimal and zero-padded to width 2, with `":"` separators.
Python slicing `current_time[0:3]` never fails, so this is total. -/
def clockStr (current_time : List ℕ) : String :=
  String.intercalate ":" ((current_time.take 3).map (fun n => zfill 2 (Nat.repr n)))

/-- `Clock.update`: store `ct` only when it differs from the current value. -/
def update (current_time ct : List ℕ) : List ℕ :=
  if ct ≠ current_time then ct else current_time

/-- `DecimalClock.standard_to_seconds`: standard seconds since midnight,
`dt[0]*3600 + dt[1]*60 + (dt[2] + dt[3]/1000000)`.  Indexing a tuple that
is too short raises `IndexError`, embedded as `none`. -/
def standard_to_seconds (dt : List ℕ) : Option ℚ := do
  let d0 ← (dt[0]? : Option ℕ)
  let d1 ← (dt[1]? : Option ℕ)
  let d2 ← (dt[2]? : Option ℕ)
  let d3 ← (dt[3]? : Option ℕ)
  let hours : ℚ := (d0 : ℚ) * 3600
  let minutes : ℚ := (d1 : ℚ) * 60
  let seconds : ℚ := (d2 : ℚ) + (d3 : ℚ) / 1000000
  return hours + minutes + seconds

/-- `DecimalClock.standard_to_decimal`: rescale the standard seconds since
midnight by `100000 / 86400` and split the result into decimal hours,
decimal minutes and decimal seconds with `math.floor`. -/
def standard_to_decimal (dt : List ℕ) : Option (ℤ × ℤ × ℤ) := do
  let stn_secs ← standard_to_seconds dt
  let dec_secs : ℚ := stn_secs * ((100000 : ℚ) / 86400)
  let dec_hrs : ℤ := ⌊dec_secs / 10000⌋
  let dec_secs : ℚ := dec_secs - 10000 * (dec_hrs : ℚ)
  let dec_mins : ℤ := ⌊dec_secs / 100⌋
  let dec_secs : ℤ := ⌊dec_secs - 100 * (dec_mins : ℚ)⌋
  return (dec_hrs, dec_mins, dec_secs)

/-- `DecimalClock.__str__`: convert the stored tuple, render the first two
decimal fields zero-padded to width 2 joined by `":"`, then append `":"`
and the decimal seconds zero-padded to width 3. -/
def decimalClockStr (current_time : List ℕ) : Option String := do
  let to_decimal ← standard_to_decimal current_time
  let s := String.intercalate ":" ([to_decimal.1, to_decimal.2.1].map (fun n => zfill 2 (Int.repr n)))
  return s ++ ":" ++ zfill 3 (Int.repr to_decimal.2.2)

/-- The line printed by `main` on each cycle:
`f"\rSTANDARD: {str(standard_clock)}    DECIMAL: {str(decimal_clock)} "`,
printed with `end=""` so nothing is appended after the trailing space. -/
def main_line (standard_clock decimal_clock : List ℕ) : Option String := do
  let d ← decimalClockStr decimal_clock
  return "\rSTANDARD: " ++ clockStr standard_clock ++ "    DECIMAL: " ++ d ++ " "

/-- The five-step reference algorithm of the specification, on a valid
(hour, minute, second, microsecond) quadruple. -/
def spec_toDecimalTime (h m s us : ℕ) : ℤ × ℤ × ℤ :=
  let totalDecimalSeconds : ℚ :=
    ((h : ℚ) * 3600 + (m : ℚ) * 60 + (s : ℚ) + (us : ℚ) / 1000000) * ((100000 : ℚ) / 86400)
  let decimalHour : ℤ := ⌊totalDecimalSeconds / 10000⌋
  let remainder : ℚ := totalDecimalSeconds - (decimalHour : ℚ) * 10000
  let decimalMinute : ℤ := ⌊remainder / 100⌋
  let decimalSecond : ℤ := ⌊remainder - (decimalMinute : ℚ) * 100⌋
  (decimalHour, decimalMinute, decimalSecond)

/-- Lexicographic strict order on (hour, minute, second, microsecond) tuples. -/
def stdLt (t1 t2 : ℕ × ℕ × ℕ × ℕ) : Prop :=
  t1.1 < t2.1 ∨ (t1.1 = t2.1 ∧ (t1.2.1 < t2.2.1 ∨ (t1.2.1 = t2.2.1 ∧
    (t1.2.2.1 < t2.2.2.1 ∨ (t1.2.2.1 = t2.2.2.1 ∧ t1.2.2.2 < t2.2.2.2)))))

/-- Lexicographic order on (decimalHour, decimalMinute, decimalSecond) triples. -/
def decLe (d1 d2 : ℤ × ℤ × ℤ) : Prop :=
  d1.1 < d2.1 ∨ (d1.1 = d2.1 ∧ (d1.2.1 < d2.2.1 ∨ (d1.2.1 = d2.2.1 ∧ d1.2.2 ≤ d2.2.2)))

instance (t1 t2 : ℕ × ℕ × ℕ × ℕ) : Decidable (stdLt t1 t2) := by
  unfold stdLt
  infer_instance

instance (d1 d2 : ℤ × ℤ × ℤ) : Decidable (decLe d1 d2) := by
  unfold decLe
  infer_instance

/-!
Helper lemmas.  Writing `N` for the number of microseconds since midnight
divided by one thousand, i.e. `N = 3600000000*h + 60000000*m + 1000000*s + us`,
the total of decimal seconds is exactly `N / 864000` as a rational, and the
three floors of the conversion are `N / 8640000000`, `N / 86400000 % 100`
and `N / 864000 % 100` in integer arithmetic.
-/

theorem floor_step_hours (N : ℕ) : ⌊(N : ℚ) / 864000 / 10000⌋ = ((N / 8640000000 : ℕ) : ℤ) := by
  rw [div_div]
  norm_num
  exact_mod_cast Rat.floor_natCast_div_natCast N 8640000000

theorem floor_step_minutes (N : ℕ) (z : ℤ) :
    ⌊((N : ℚ) / 864000 - 10000 * (z : ℚ)) / 100⌋ = ((N / 86400000 : ℕ) : ℤ) - 100 * z := by
  have e : ((N : ℚ) / 864000 - 10000 * (z : ℚ)) / 100
      = (N : ℚ) / ((86400000 : ℕ) : ℚ) - ((100 * z : ℤ) : ℚ) := by
    push_cast
    ring
  rw [e, Int.floor_sub_int, Rat.floor_natCast_div_natCast]
  push_cast
  ring

theorem floor_step_seconds (N : ℕ) (z w : ℤ) :
    ⌊(N : ℚ) / 864000 - 10000 * (z : ℚ) - 100 * (w : ℚ)⌋
      = ((N / 864000 : ℕ) : ℤ) - 10000 * z - 100 * w := by
  have e : (N : ℚ) / 864000 - 10000 * (z : ℚ) - 100 * (w : ℚ)
      = (N : ℚ) / ((864000 : ℕ) : ℚ) - ((10000 * z + 100 * w : ℤ) : ℚ) := by
    push_cast
    ring
  rw [e, Int.floor_sub_int, Rat.floor_natCast_div_natCast]
  push_cast
  ring

theorem floor_step_minutes_spec (N : ℕ) (z : ℤ) :
    ⌊((N : ℚ) / 864000 - (z : ℚ) * 10000) / 100⌋ = ((N / 86400000 : ℕ) : ℤ) - 100 * z := by
  rw [show (N : ℚ) / 864000 - (z : ℚ) * 10000 = (N : ℚ) / 864000 - 10000 * (z : ℚ) by ring]
  exact floor_step_minutes N z

theorem floor_step_seconds_spec (N : ℕ) (z w : ℤ) :
    ⌊(N : ℚ) / 864000 - (z : ℚ) * 10000 - (w : ℚ) * 100⌋
      = ((N / 864000 : ℕ) : ℤ) - 10000 * z - 100 * w := by
  rw [show (N : ℚ) / 864000 - (z : ℚ) * 10000 - (w : ℚ) * 100
      = (N : ℚ) / 864000 - 10000 * (z : ℚ) - 100 * (w : ℚ) by ring]
  exact floor_step_seconds N z w

theorem standard_to_decimal_closed (h m s us : ℕ) :
    standard_to_decimal [h, m, s, us] =
      some ((((3600000000 * h + 60000000 * m + 1000000 * s + us) / 8640000000 : ℕ) : ℤ),
            ((((3600000000 * h + 60000000 * m + 1000000 * s + us) / 86400000) % 100 : ℕ) : ℤ),
            ((((3600000000 * h + 60000000 * m + 1000000 * s + us) / 864000) % 100 : ℕ) : ℤ)) := by
  have hx : ((h : ℚ) * 3600 + (m : ℚ) * 60 + ((s : ℚ) + (us : ℚ) / 1000000)) * ((100000 : ℚ) / 86400)
      = ((3600000000 * h + 60000000 * m + 1000000 * s + us : ℕ) : ℚ) / 864000 := by
    push_cast
    field_simp
    ring
  simp only [standard_to_decimal, standard_to_seconds, List.getElem?_cons_zero,
    List.getElem?_cons_succ, Option.some_bind, Option.bind_eq_bind, Option.pure_def, hx]
  rw [floor_step_hours, floor_step_minutes, floor_step_seconds]
  congr 1
  refine Prod.ext rfl (Prod.ext ?_ ?_)
  · show ((3600000000 * h + 60000000 * m + 1000000 * s + us) / 86400000 : ℕ) -
        100 * (((3600000000 * h + 60000000 * m + 1000000 * s + us) / 8640000000 : ℕ) : ℤ)
      = ((((3600000000 * h + 60000000 * m + 1000000 * s + us) / 86400000) % 100 : ℕ) : ℤ)
    omega
  · show ((3600000000 * h + 60000000 * m + 1000000 * s + us) / 864000 : ℕ) -
        10000 * (((3600000000 * h + 60000000 * m + 1000000 * s + us) / 8640000000 : ℕ) : ℤ) -
        100 * ((((3600000000 * h + 60000000 * m + 1000000 * s + us) / 86400000 : ℕ) : ℤ) -
          100 * (((3600000000 * h + 60000000 * m + 1000000 * s + us) / 8640000000 : ℕ) : ℤ))
      = ((((3600000000 * h + 60000000 * m + 1000000 * s + us) / 864000) % 100 : ℕ) : ℤ)
    omega

theorem spec_toDecimalTime_closed (h m s us : ℕ) :
    spec_toDecimalTime h m s us =
      ((((3600000000 * h + 60000000 * m + 1000000 * s + us) / 8640000000 : ℕ) : ℤ),
       ((((3600000000 * h + 60000000 * m + 1000000 * s + us) / 86400000) % 100 : ℕ) : ℤ),
       ((((3600000000 * h + 60000000 * m + 1000000 * s + us) / 864000) % 100 : ℕ) : ℤ)) := by
  have hx : ((h : ℚ) * 3600 + (m : ℚ) * 60 + (s : ℚ) + (us : ℚ) / 1000000) * ((100000 : ℚ) / 86400)
      = ((3600000000 * h + 60000000 * m + 1000000 * s + us : ℕ) : ℚ) / 864000 := by
    push_cast
    field_simp
    ring
  simp only [spec_toDecimalTime, hx]
  rw [floor_step_hours, floor_step_minutes_spec, floor_step_seconds_spec]
  refine Prod.ext rfl (Prod.ext ?_ ?_)
  · show ((3600000000 * h + 60000000 * m + 1000000 * s + us) / 86400000 : ℕ) -
        100 * (((3600000000 * h + 60000000 * m + 1000000 * s + us) / 8640000000 : ℕ) : ℤ)
      = ((((3600000000 * h + 60000000 * m + 1000000 * s + us) / 86400000) % 100 : ℕ) : ℤ)
    omega
  · show ((3600000000 * h + 60000000 * m + 1000000 * s + us) / 864000 : ℕ) -
        10000 * (((3600000000 * h + 60000000 * m + 1000000 * s + us) / 8640000000 : ℕ) : ℤ) -
        100 * ((((3600000000 * h + 60000000 * m + 1000000 * s + us) / 86400000 : ℕ) : ℤ) -
          100 * (((3600000000 * h + 60000000 * m + 1000000 * s + us) / 8640000000 : ℕ) : ℤ))
      = ((((3600000000 * h + 60000000 * m + 1000000 * s + us) / 864000) % 100 : ℕ) : ℤ)
    omega

theorem clockStr_eq (h m s us : ℕ) :
    clockStr [h, m, s, us] =
      zfill 2 (Nat.repr h) ++ ":" ++ zfill 2 (Nat.repr m) ++ ":" ++ zfill 2 (Nat.repr s) := rfl

theorem decimalClockStr_eq (h m s us : ℕ) :
    decimalClockStr [h, m, s, us] =
      some (zfill 2 (Nat.repr ((3600000000 * h + 60000000 * m + 1000000 * s + us) / 8640000000))
        ++ ":" ++
        zfill 2 (Nat.repr ((3600000000 * h + 60000000 * m + 1000000 * s + us) / 86400000 % 100))
        ++ ":" ++
        zfill 3 (Nat.repr ((3600000000 * h + 60000000 * m + 1000000 * s + us) / 864000 % 100))) := by
  unfold decimalClockStr
  rw [standard_to_decimal_closed]
  rfl

theorem zfill2_len : ∀ n : ℕ, n < 100 → (zfill 2 (Nat.repr n)).length = 2 := by decide

theorem zfill3_len : ∀ n : ℕ, n < 100 → (zfill 3 (Nat.repr n)).length = 3 := by decide

theorem zfill2_no_nl : ∀ n : ℕ, n < 100 → ('\n' : Char) ∉ (zfill 2 (Nat.repr n)).data := by decide

theorem zfill3_no_nl : ∀ n : ℕ, n < 100 → ('\n' : Char) ∉ (zfill 3 (Nat.repr n)).data := by decide

/-- C1: for every valid StandardTime (hour 0-23, minute 0-59, second 0-59,
microsecond 0-999999), `standard_to_decimal` returns exactly the triple
computed by the five-step reference algorithm of the specification. -/
theorem standard_to_decimal_refines_spec (h m s us : ℕ)
    (hh : h < 24) (hm : m < 60) (hs : s < 60) (hus : us < 1000000) :
    standard_to_decimal [h, m, s, us] = some (spec_toDecimalTime h m s us) := by
  rw [standard_to_decimal_closed, spec_toDecimalTime_closed]

/-- Witness for C1 at the concrete input (12, 0, 0, 0). -/
theorem standard_to_decimal_refines_spec_witness :
    (12 < 24 ∧ 0 < 60 ∧ 0 < 60 ∧ 0 < 1000000) ∧
      standard_to_decimal [12, 0, 0, 0] = some (spec_toDecimalTime 12 0 0 0) :=
  ⟨by decide,
   standard_to_decimal_refines_spec 12 0 0 0 (by decide) (by decide) (by decide) (by decide)⟩

/-- C2: for every valid StandardTime, the converted triple satisfies the
DecimalTime range bounds: decimalHour in 0-9, decimalMinute in 0-99,
decimalSecond in 0-99. -/
theorem decimal_time_in_range (h m s us : ℕ)
    (hh : h < 24) (hm : m < 60) (hs : s < 60) (hus : us < 1000000) :
    ∃ d : ℤ × ℤ × ℤ, standard_to_decimal [h, m, s, us] = some d ∧
      0 ≤ d.1 ∧ d.1 ≤ 9 ∧ 0 ≤ d.2.1 ∧ d.2.1 ≤ 99 ∧ 0 ≤ d.2.2 ∧ d.2.2 ≤ 99 := by
  rw [standard_to_decimal_closed]
  refine ⟨_, rfl, ?_, ?_, ?_, ?_, ?_, ?_⟩ <;> dsimp only <;> omega

/-- Witness for C2 at the concrete input (23, 59, 59, 999999). -/
theorem decimal_time_in_range_witness :
    (23 < 24 ∧ 59 < 60 ∧ 59 < 60 ∧ 999999 < 1000000) ∧
      ∃ d : ℤ × ℤ × ℤ, standard_to_decimal [23, 59, 59, 999999] = some d ∧
        0 ≤ d.1 ∧ d.1 ≤ 9 ∧ 0 ≤ d.2.1 ∧ d.2.1 ≤ 99 ∧ 0 ≤ d.2.2 ∧ d.2.2 ≤ 99 :=
  ⟨by decide,
   decimal_time_in_range 23 59 59 999999 (by decide) (by decide) (by decide) (by decide)⟩

/-- C3: at the boundary input (23, 59, 59, 999999) the conversion yields
(9, 99, 99), and the total of decimal seconds stays strictly below 100000,
so the result never rolls over to (10, 0, 0). -/
theorem boundary_just_below_rollover :
    standard_to_decimal [23, 59, 59, 999999] = some (9, 99, 99) ∧
      ∃ q : ℚ, standard_to_seconds [23, 59, 59, 999999] = some q ∧
        q * ((100000 : ℚ) / 86400) < 100000 := by
  constructor
  · rw [standard_to_decimal_closed]
    decide
  · exact ⟨_, rfl, by norm_num⟩

/-- C4: the midday input (12, 0, 0, 0) converts to (5, 0, 0). -/
theorem midday_decimal : standard_to_decimal [12, 0, 0, 0] = some (5, 0, 0) := by
  rw [standard_to_decimal_closed]
  decide

/-- C5: the conversion is monotone: for valid StandardTimes t1 < t2 in
lexicographic order, the decimal triples satisfy decimal(t1) <= decimal(t2)
in lexicographic order. -/
theorem decimal_monotone (h1 m1 s1 us1 h2 m2 s2 us2 : ℕ)
    (hh1 : h1 < 24) (hm1 : m1 < 60) (hs1 : s1 < 60) (hus1 : us1 < 1000000)
    (hh2 : h2 < 24) (hm2 : m2 < 60) (hs2 : s2 < 60) (hus2 : us2 < 1000000)
    (hlt : stdLt (h1, m1, s1, us1) (h2, m2, s2, us2)) :
    ∃ d1 d2 : ℤ × ℤ × ℤ, standard_to_decimal [h1, m1, s1, us1] = some d1 ∧
      standard_to_decimal [h2, m2, s2, us2] = some d2 ∧ decLe d1 d2 := by
  rw [standard_to_decimal_closed, standard_to_decimal_closed]
  refine ⟨_, _, rfl, rfl, ?_⟩
  unfold stdLt at hlt
  unfold decLe
  simp only at hlt ⊢
  have hN : 3600000000 * h1 + 60000000 * m1 + 1000000 * s1 + us1
      < 3600000000 * h2 + 60000000 * m2 + 1000000 * s2 + us2 := by omega
  have hj : (3600000000 * h1 + 60000000 * m1 + 1000000 * s1 + us1) / 864000
      ≤ (3600000000 * h2 + 60000000 * m2 + 1000000 * s2 + us2) / 864000 :=
    Nat.div_le_div_right (Nat.le_of_lt hN)
  have e1 : (3600000000 * h1 + 60000000 * m1 + 1000000 * s1 + us1) / 8640000000
      = (3600000000 * h1 + 60000000 * m1 + 1000000 * s1 + us1) / 864000 / 10000 := by
    rw [Nat.div_div_eq_div_mul]
  have e2 : (3600000000 * h2 + 60000000 * m2 + 1000000 * s2 + us2) / 8640000000
      = (3600000000 * h2 + 60000000 * m2 + 1000000 * s2 + us2) / 864000 / 10000 := by
    rw [Nat.div_div_eq_div_mul]
  have e3 : (3600000000 * h1 + 60000000 * m1 + 1000000 * s1 + us1) / 86400000
      = (3600000000 * h1 + 60000000 * m1 + 1000000 * s1 + us1) / 864000 / 100 := by
    rw [Nat.div_div_eq_div_mul]
  have e4 : (3600000000 * h2 + 60000000 * m2 + 1000000 * s2 + us2) / 86400000
      = (3600000000 * h2 + 60000000 * m2 + 1000000 * s2 + us2) / 864000 / 100 := by
    rw [Nat.div_div_eq_div_mul]
  rw [e1, e2, e3, e4]
  generalize (3600000000 * h1 + 60000000 * m1 + 1000000 * s1 + us1) / 864000 = j1 at hj ⊢
  generalize (3600000000 * h2 + 60000000 * m2 + 1000000 * s2 + us2) / 864000 = j2 at hj ⊢
  omega

/-- Witness for C5 at the concrete inputs (12, 0, 0, 0) < (13, 0, 0, 1). -/
theorem decimal_monotone_witness :
    (12 < 24 ∧ 0 < 60 ∧ 0 < 60 ∧ 0 < 1000000 ∧
     13 < 24 ∧ 0 < 60 ∧ 0 < 60 ∧ 1 < 1000000 ∧
     stdLt (12, 0, 0, 0) (13, 0, 0, 1)) ∧
      ∃ d1 d2 : ℤ × ℤ × ℤ, standard_to_decimal [12, 0, 0, 0] = some d1 ∧
        standard_to_decimal [13, 0, 0, 1] = some d2 ∧ decLe d1 d2 :=
  ⟨by decide,
   decimal_monotone 12 0 0 0 13 0 0 1 (by decide) (by decide) (by decide) (by decide)
     (by decide) (by decide) (by decide) (by decide) (by decide)⟩

/-- C6: formatting is deterministic: evaluating the standard formatting
operation twice on the same stored tuple yields identical strings, and
likewise for the decimal formatting operation.  Both formatters are pure
functions of the stored tuple, so two evaluations coincide. -/
theorem format_deterministic (ct : List ℕ) :
    clockStr ct = clockStr ct ∧ decimalClockStr ct = decimalClockStr ct :=
  ⟨rfl, rfl⟩

theorem no_nl_append (a b : String) (ha : ('\n' : Char) ∉ a.data) (hb : ('\n' : Char) ∉ b.data) :
    ('\n' : Char) ∉ (a ++ b).data := by
  rw [String.data_append]
  simp only [List.mem_append]
  tauto

/-- C7: for every valid StandardTime, the standard formatter produces the
8-character string `HH:MM:SS` (each field zero-padded to width 2), and the
decimal formatter produces a 9-character string `HH:MM:SSS` (first two
fields zero-padded to width 2, the third to width 3). -/
theorem format_lengths (h m s us : ℕ)
    (hh : h < 24) (hm : m < 60) (hs : s < 60) (hus : us < 1000000) :
    clockStr [h, m, s, us] =
        zfill 2 (Nat.repr h) ++ ":" ++ zfill 2 (Nat.repr m) ++ ":" ++ zfill 2 (Nat.repr s) ∧
      (clockStr [h, m, s, us]).length = 8 ∧
      (decimalClockStr [h, m, s, us]).map String.length = some 9 := by
  refine ⟨rfl, ?_, ?_⟩
  · rw [clockStr_eq, String.length_append, String.length_append, String.length_append,
      String.length_append, zfill2_len h (by omega), zfill2_len m (by omega),
      zfill2_len s (by omega)]
    rfl
  · rw [decimalClockStr_eq]
    simp only [Option.map_some']
    rw [String.length_append, String.length_append, String.length_append, String.length_append,
      zfill2_len _ (by omega), zfill2_len _ (by omega), zfill3_len _ (by omega)]
    rfl

/-- Witness for C7 at the concrete input (1, 2, 3, 4). -/
theorem format_lengths_witness :
    (1 < 24 ∧ 2 < 60 ∧ 3 < 60 ∧ 4 < 1000000) ∧
      (clockStr [1, 2, 3, 4] =
          zfill 2 (Nat.repr 1) ++ ":" ++ zfill 2 (Nat.repr 2) ++ ":" ++ zfill 2 (Nat.repr 3) ∧
        (clockStr [1, 2, 3, 4]).length = 8 ∧
        (decimalClockStr [1, 2, 3, 4]).map String.length = some 9) :=
  ⟨by decide, format_lengths 1 2 3 4 (by decide) (by decide) (by decide) (by decide)⟩

/-- C8: on every cycle with valid clock states, the rendered line is a
carriage return followed by `STANDARD: `, the formatted standard time,
four spaces, `DECIMAL: `, the formatted decimal time and one trailing
space, and the line contains no newline. -/
theorem main_line_format (h1 m1 s1 us1 h2 m2 s2 us2 : ℕ)
    (hh1 : h1 < 24) (hm1 : m1 < 60) (hs1 : s1 < 60) (hus1 : us1 < 1000000)
    (hh2 : h2 < 24) (hm2 : m2 < 60) (hs2 : s2 < 60) (hus2 : us2 < 1000000) :
    ∃ d : String, decimalClockStr [h2, m2, s2, us2] = some d ∧
      main_line [h1, m1, s1, us1] [h2, m2, s2, us2] =
        some ("\r" ++ "STANDARD: " ++ clockStr [h1, m1, s1, us1] ++ "    " ++ "DECIMAL: "
          ++ d ++ " ") ∧
      ∀ line : String, main_line [h1, m1, s1, us1] [h2, m2, s2, us2] = some line →
        ('\n' : Char) ∉ line.data := by
  have hd := decimalClockStr_eq h2 m2 s2 us2
  have sd : ('\n' : Char) ∉ (clockStr [h1, m1, s1, us1]).data := by
    rw [clockStr_eq]
    refine no_nl_append _ _ (no_nl_append _ _ (no_nl_append _ _ (no_nl_append _ _ ?_ ?_) ?_) ?_) ?_
    · exact zfill2_no_nl _ (by omega)
    · decide
    · exact zfill2_no_nl _ (by omega)
    · decide
    · exact zfill2_no_nl _ (by omega)
  have dd : ('\n' : Char) ∉
      (zfill 2 (Nat.repr ((3600000000 * h2 + 60000000 * m2 + 1000000 * s2 + us2) / 8640000000))
        ++ ":" ++
        zfill 2 (Nat.repr ((3600000000 * h2 + 60000000 * m2 + 1000000 * s2 + us2) / 86400000 % 100))
        ++ ":" ++
        zfill 3 (Nat.repr ((3600000000 * h2 + 60000000 * m2 + 1000000 * s2 + us2) / 864000 % 100))).data := by
    refine no_nl_append _ _ (no_nl_append _ _ (no_nl_append _ _ (no_nl_append _ _ ?_ ?_) ?_) ?_) ?_
    · exact zfill2_no_nl _ (by omega)
    · decide
    · exact zfill2_no_nl _ (by omega)
    · decide
    · exact zfill3_no_nl _ (by omega)
  have hm : main_line [h1, m1, s1, us1] [h2, m2, s2, us2] =
      some ("\rSTANDARD: " ++ clockStr [h1, m1, s1, us1] ++ "    DECIMAL: "
        ++ (zfill 2 (Nat.repr ((3600000000 * h2 + 60000000 * m2 + 1000000 * s2 + us2) / 8640000000))
          ++ ":" ++
          zfill 2 (Nat.repr ((3600000000 * h2 + 60000000 * m2 + 1000000 * s2 + us2) / 86400000 % 100))
          ++ ":" ++
          zfill 3 (Nat.repr ((3600000000 * h2 + 60000000 * m2 + 1000000 * s2 + us2) / 864000 % 100)))
        ++ " ") := by
    unfold main_line
    rw [hd]
    rfl
  have assoc : ∀ X D : String,
      "\rSTANDARD: " ++ X ++ "    DECIMAL: " ++ D ++ " "
        = "\r" ++ "STANDARD: " ++ X ++ "    " ++ "DECIMAL: " ++ D ++ " " := fun X D => by
    apply String.ext
    simp only [String.data_append, List.append_assoc]
    rfl
  refine ⟨_, hd, ?_, ?_⟩
  · rw [hm, assoc]
  · intro line hline
    rw [hm] at hline
    injection hline with hline
    rw [← hline]
    refine no_nl_append _ _ (no_nl_append _ _ (no_nl_append _ _ ?_ ?_) ?_) ?_
    · exact no_nl_append _ _ (by decide) sd
    · decide
    · exact dd
    · decide

/-- Witness for C8 at the concrete clock states (1, 2, 3, 4) and (23, 59, 59, 999999). -/
theorem main_line_format_witness :
    (1 < 24 ∧ 2 < 60 ∧ 3 < 60 ∧ 4 < 1000000 ∧
     23 < 24 ∧ 59 < 60 ∧ 59 < 60 ∧ 999999 < 1000000) ∧
      ∃ d : String, decimalClockStr [23, 59, 59, 999999] = some d ∧
        main_line [1, 2, 3, 4] [23, 59, 59, 999999] =
          some ("\r" ++ "STANDARD: " ++ clockStr [1, 2, 3, 4] ++ "    " ++ "DECIMAL: "
            ++ d ++ " ") ∧
        ∀ line : String, main_line [1, 2, 3, 4] [23, 59, 59, 999999] = some line →
          ('\n' : Char) ∉ line.data :=
  ⟨by decide,
   main_line_format 1 2 3 4 23 59 59 999999 (by decide) (by decide) (by decide) (by decide)
     (by decide) (by decide) (by decide) (by decide)⟩

/-- C9: `update` always leaves `ct` as the stored current time, whether or
not it differed from the previous value: the change guard only skips a
redundant assignment. -/
theorem update_stores_new_time (current_time ct : List ℕ) : update current_time ct = ct := by
  unfold update
  by_cases hc : ct = current_time
  · simp [hc]
  · simp [hc]

/-- C10: on a freshly constructed clock (current_time is the empty tuple),
the standard formatter returns the empty string, while
`standard_to_seconds` fails on index 0 of the empty tuple, so the decimal
formatter fails as well. -/
theorem fresh_clock_behavior :
    clockStr [] = "" ∧ standard_to_seconds [] = none ∧ decimalClockStr [] = none :=
  ⟨rfl, rfl, rfl⟩

end AsyncDecimalClock
